import Mathlib

/-!
Shallow embedding of the InsightFlow-AI conversational-BI backend's
query-generation and self-healing pipeline, and proofs about it.

Embedded components (from `backend/app`):
* `services/llm_service.py` — `LLMService.text_to_sql`, `LLMService.fix_sql_error`,
  `LLMService.interpret_results`;
* `services/duckdb_manager.py` — `DuckDBManager.execute_query`;
* `api/chat.py` — the `query_data` orchestrator endpoint.

External collaborators (the language model, the DuckDB engine, the ORM
session) are modelled as oracles supplied in an environment record; the
repository's own control flow, string post-processing, and persistence
order are translated faithfully.
-/

/-- Python strings, modelled as lists of characters. -/
abbrev PyStr := List Char

/-- Coerce a Lean string literal into the `PyStr` model. -/
def str (s : String) : PyStr := s.data

/-- The characters Python's `str.strip()` removes: space, tab, newline,
carriage return, vertical tab, form feed. -/
def pyIsSpace (c : Char) : Bool :=
  c = ' ' || c = '\t' || c = '\n' || c = '\r' || c = Char.ofNat 11 || c = Char.ofNat 12

/-- Python's `str.startswith`: `pfx p s` iff `p` is a prefix of `s`. -/
def pfx : PyStr → PyStr → Bool
  | [], _ => true
  | _ :: _, [] => false
  | a :: as, b :: bs => a == b && pfx as bs

/-- `hasSub p s` iff `p` occurs as a contiguous substring of `s`
(Python's `p in s`). -/
def hasSub (p : PyStr) : PyStr → Bool
  | [] => p.isEmpty
  | c :: rest => pfx p (c :: rest) || hasSub p rest

/-- Python's `str.strip()`: drop whitespace from both ends. -/
def pyStrip (s : PyStr) : PyStr :=
  ((s.dropWhile pyIsSpace).reverse.dropWhile pyIsSpace).reverse

/-- Fuel-indexed worker for `pyReplace`.  Each recursive call consumes at
least one character of the input, so fuel `s.length` always suffices; the
fuel only makes the recursion structural. -/
def replFuel (pat repl : PyStr) : Nat → PyStr → PyStr
  | 0, s => s
  | _ + 1, [] => []
  | n + 1, c :: rest =>
      if pfx pat (c :: rest) && !pat.isEmpty then
        repl ++ replFuel pat repl n (rest.drop (pat.length - 1))
      else
        c :: replFuel pat repl n rest

/-- Python's `str.replace(pat, repl)` for a non-empty pattern: replaces
every non-overlapping occurrence, scanning left to right. -/
def pyReplace (pat repl s : PyStr) : PyStr :=
  replFuel pat repl s.length s

/-- The markdown-fence cleanup shared verbatim by `LLMService.text_to_sql`
(llm_service.py:122-128) and `LLMService.fix_sql_error`
(llm_service.py:163-169): strip the raw reply, then if it starts with a
fenced code block (with or without the `sql` tag) delete every occurrence
of the fence markers and strip again. -/
def cleanSql (content : PyStr) : PyStr :=
  let sq := pyStrip content
  if pfx (str "```sql") sq then
    pyStrip (pyReplace (str "```") [] (pyReplace (str "```sql") [] sq))
  else if pfx (str "```") sq then
    pyStrip (pyReplace (str "```") [] sq)
  else
    sq

/-- Behaviour of one `self.llm.invoke(messages)` call: the model either
returns text or the call raises. -/
inductive ModelReply where
  | text (content : PyStr)
  | raise (err : PyStr)
deriving DecidableEq

/-- The dict returned by `text_to_sql` / `fix_sql_error`:
`{"success": True, "sql": ...}` or `{"success": False, "error": ...}`. -/
inductive SqlRes where
  | ok (sql : PyStr)
  | err (error : PyStr)
deriving DecidableEq

/-- `LLMService.text_to_sql` (llm_service.py:80-132) as a function of the
model-call outcome.  Prompt assembly is pure string building that reaches
this function's result only through the model's reply, so it is absorbed
into the `ModelReply` oracle.  A successful call strips fences via
`cleanSql`; a raising call is caught and reported as a failure dict. -/
def text_to_sql (reply : ModelReply) : SqlRes :=
  match reply with
  | .text content => .ok (cleanSql content)
  | .raise e => .err e

/-- `LLMService.fix_sql_error` (llm_service.py:134-173): identical
post-processing and error capture, repair-framed prompt absorbed into the
oracle. -/
def fix_sql_error (reply : ModelReply) : SqlRes :=
  match reply with
  | .text content => .ok (cleanSql content)
  | .raise e => .err e

/-- A JSON scalar appearing in a result cell. -/
inductive JVal where
  | jnum (n : Int)
  | jstr (s : PyStr)
  | jbool (b : Bool)
  | jnull
deriving DecidableEq

/-- One result row as DuckDB's `to_dict('records')` produces it: a mapping
from column name to value. -/
abbrev Row := List (PyStr × JVal)

/-- The JSON object the interpretation model is asked for, as the keyed
dict `chat.py` reads with `.get`: each key may be absent. -/
structure InterpJson where
  answer : Option PyStr
  insights : Option (List PyStr)
  visualization_type : Option PyStr
deriving DecidableEq

/-- Outcome of the interpretation model call plus JSON parse:
the call raised, or it returned text that is not JSON, or it returned a
parsed JSON object. -/
inductive InterpCall where
  | raised (err : PyStr)
  | nonJson
  | json (j : InterpJson)
deriving DecidableEq

/-- The canned fallback answer `f"Found {len(query_results)} results."`. -/
def canned (n : Nat) : PyStr := str "Found " ++ (Nat.repr n).data ++ str " results."

/-- The dict returned by `interpret_results`:
`{"success": True, "interpretation": ...}` or
`{"success": False, "error": ...}`. -/
inductive InterpRes where
  | success (interpretation : InterpJson)
  | failure (error : PyStr)
deriving DecidableEq

/-- `LLMService.interpret_results` (llm_service.py:175-233) as a function
of the row list and the model-call outcome.  A `json.JSONDecodeError`
falls back to the canned interpretation; any other exception from the
call is caught and returned as a failure dict. -/
def interpret_results (query_results : List Row) (call : InterpCall) : InterpRes :=
  match call with
  | .raised e => .failure e
  | .nonJson =>
      .success { answer := some (canned query_results.length),
                 insights := some [],
                 visualization_type := some (str "table") }
  | .json j => .success j

/-- Behaviour of `self.conn.execute(sql).fetchdf()` on one statement: the
engine returns a dataframe (rows and column names) or raises. -/
inductive EngineRes where
  | frame (rows : List Row) (cols : List PyStr)
  | raise (msg : PyStr)
deriving DecidableEq

/-- The dict returned by `DuckDBManager.execute_query`: on success
`{"success", "data", "columns", "row_count"}`, on failure
`{"success", "error", "sql"}`. -/
inductive ExecOutcome where
  | ok (data : List Row) (columns : List PyStr) (row_count : Nat)
  | err (error : PyStr) (sql : PyStr)
deriving DecidableEq

/-- `DuckDBManager.execute_query` (duckdb_manager.py:119-134) over a
scoped connection oracle.  The try/except makes it total: an engine
exception becomes a failure dict carrying `str(e)` verbatim and the
attempted SQL; success materializes the full frame with
`row_count = len(result)`. -/
def execute_query (conn : PyStr → EngineRes) (sql : PyStr) : ExecOutcome :=
  match conn sql with
  | .frame rows cols => .ok rows cols rows.length
  | .raise m => .err m sql

/-- The per-project analytical store state: named tables with their rows.
Opaque to the pipeline; the engine oracle is a function of it. -/
abbrev Store := List (PyStr × List Row)

/-- The scoped connection `duckdb.connect(db_path)` yields, viewed over a
fixed store state: the engine is deterministic in store state and SQL. -/
def connOf (run : Store → PyStr → EngineRes) (st : Store) : PyStr → EngineRes :=
  run st

/-- Message role, the `role` column of the `messages` table. -/
inductive Role where
  | user
  | assistant
deriving DecidableEq

/-- A persisted `Message` row (models/message.py), the fields `query_data`
writes.  `query_result` keeps the row list itself, modelling the
`json.dumps(query_result["data"])` serialization. -/
structure Message where
  role : Role
  content : PyStr
  sql_query : Option PyStr := none
  query_result : Option (List Row) := none
  error_message : Option PyStr := none
deriving DecidableEq

/-- Observable trace of one `query_data` request: the messages appended to
the chat in chronological order, and how often each external pipeline
step was invoked. -/
structure Trace where
  messages : List Message
  genCalls : Nat
  execCalls : Nat
  fixCalls : Nat
deriving DecidableEq

/-- What the endpoint returns to its caller: an `HTTPException` with
status and detail, or a `ChatQueryResponse` (message, data,
visualization_type). -/
inductive QueryResult where
  | httpError (status : Nat) (detail : PyStr)
  | response (message : Message) (data : Option (List Row)) (visualization_type : Option PyStr)
deriving DecidableEq

/-- A Python exception reaching the orchestrator's `except Exception`
handler: an `HTTPException` raised inside the `try`, or any other
exception with its message. -/
inductive PyExc where
  | http (status : Nat) (detail : PyStr)
  | other (msg : PyStr)
deriving DecidableEq

/-- Python's `str(e)` on such an exception; starlette's
`HTTPException.__str__` is `f"{self.status_code}: {self.detail}"`. -/
def strOfExc : PyExc → PyStr
  | .http code detail => (Nat.repr code).data ++ str ": " ++ detail
  | .other m => m

/-- Append one message to the chat (the `db.add` / `db.commit` pair). -/
def pushMsg (t : Trace) (m : Message) : Trace :=
  { t with messages := t.messages ++ [m] }

/-- The `except Exception as e` handler of `query_data`
(chat.py:235-250): store an assistant turn carrying `str(e)`, then
re-raise as `HTTPException(500, detail=str(e))`. -/
def handleExc (exc : PyExc) (t : Trace) : QueryResult × Trace :=
  let s := strOfExc exc
  (.httpError 500 s,
   pushMsg t { role := .assistant,
               content := str "An error occurred: " ++ s,
               error_message := some s })

/-- Environment of one `query_data` request: identity/configuration
lookups and the behaviour of each external call. -/
structure Env where
  /-- The chat lookup for (chat_id, user) found a row. -/
  chatFound : Bool
  /-- An `LLMConfig` with `is_active == 1` exists for the user. -/
  hasActiveConfig : Bool
  /-- The incoming question text. -/
  query : PyStr
  /-- `decrypt_api_key` / `LLMService.__init__` / `json.loads(schema_json)`
  raising before generation, with the exception's message. -/
  setupExc : Option PyStr
  /-- The model call inside `text_to_sql`. -/
  gen : ModelReply
  /-- `duckdb.connect` raising in `DuckDBManager.__enter__`. -/
  connectExc : Option PyStr
  /-- The scoped connection used for both executions of this request.
  A failed DuckDB statement does not mutate the store, so the store state
  is fixed across the repair cycle. -/
  conn : PyStr → EngineRes
  /-- The model call inside `fix_sql_error`. -/
  fix : ModelReply
  /-- The model call plus JSON parse inside `interpret_results`. -/
  interp : InterpCall

/-- Tail of the pipeline after the final execution outcome is known
(chat.py:189-233): a failed outcome is stored as an assistant error turn
and returned as a *successful* response with null data; a successful
outcome is interpreted, `interpret_result.get("interpretation", {})` and
the `.get` defaults are applied, and a normal assistant turn is stored. -/
def finishQuery (env : Env) (sql : PyStr) (q : ExecOutcome) (t : Trace) : QueryResult × Trace :=
  match q with
  | .err e _ =>
      let m : Message :=
        { role := .assistant,
          content := str "I encountered an error: " ++ e,
          sql_query := some sql,
          error_message := some e }
      (.response m none none, pushMsg t m)
  | .ok data _cols row_count =>
      let interpretation : InterpJson :=
        match interpret_results data env.interp with
        | .success j => j
        | .failure _ => { answer := none, insights := none, visualization_type := none }
      let answer := interpretation.answer.getD (canned row_count)
      let viz := interpretation.visualization_type.getD (str "table")
      let m : Message :=
        { role := .assistant,
          content := answer,
          sql_query := some sql,
          query_result := some data }
      (.response m (some data) (some viz), pushMsg t m)

/-- The `query_data` endpoint (chat.py:99-250).  Mirrors the source line
by line: 404 when the chat lookup fails; 400 when no active LLM config
exists (both raised before the user turn is stored); then the user turn
is stored and the `try` block runs: generation, execution, at most one
repair + re-execution, interpretation.  A generation failure raises
`HTTPException(500, ...)` inside the `try`, which the `except` handler
catches, records, and re-raises. -/
def query_data (env : Env) : QueryResult × Trace :=
  let t0 : Trace := ⟨[], 0, 0, 0⟩
  if env.chatFound = false then
    (.httpError 404 (str "Chat not found"), t0)
  else if env.hasActiveConfig = false then
    (.httpError 400 (str "No active LLM configuration. Please configure your API key."), t0)
  else
    let t1 := pushMsg t0 { role := .user, content := env.query }
    match env.setupExc with
    | some e => handleExc (.other e) t1
    | none =>
      let t2 := { t1 with genCalls := t1.genCalls + 1 }
      match text_to_sql env.gen with
      | .err e => handleExc (.http 500 (str "Failed to generate SQL: " ++ e)) t2
      | .ok sql0 =>
        match env.connectExc with
        | some e => handleExc (.other e) t2
        | none =>
          let t3 := { t2 with execCalls := t2.execCalls + 1 }
          match execute_query env.conn sql0 with
          | .ok data cols n => finishQuery env sql0 (.ok data cols n) t3
          | .err e1 s1 =>
            let t4 := { t3 with fixCalls := t3.fixCalls + 1 }
            match fix_sql_error env.fix with
            | .ok sql1 =>
              let t5 := { t4 with execCalls := t4.execCalls + 1 }
              finishQuery env sql1 (execute_query env.conn sql1) t5
            | .err _ => finishQuery env sql0 (.err e1 s1) t4

/-- The backtick character, written by code point. -/
def bq : Char := Char.ofNat 96

/-- A one-column row `{"id": n}`. -/
def rowId (n : Int) : Row := [(str "id", JVal.jnum n)]

/-- A connection on which every statement succeeds with one row. -/
def connOkC : PyStr → EngineRes := fun _ => .frame [rowId 1] [str "id"]

/-- A connection on which every statement fails. -/
def connFailC : PyStr → EngineRes := fun _ => .raise (str "Parser Error: syntax error at X")

/-- A connection on which only the repaired statement `SELECT 2` succeeds. -/
def connRepairedC : PyStr → EngineRes := fun s =>
  if s = str "SELECT 2" then .frame [rowId 1] [str "id"]
  else .raise (str "Parser Error: syntax error at X")

/-- A fully healthy request environment, the baseline for the concrete
scenarios below. -/
def envBase : Env where
  chatFound := true
  hasActiveConfig := true
  query := str "How many rows are there?"
  setupExc := none
  gen := .text (str "SELECT 1")
  connectExc := none
  conn := connOkC
  fix := .text (str "SELECT 2")
  interp := .json { answer := some (str "There is 1 row."),
                    insights := some [],
                    visualization_type := some (str "bar") }

/-- Baseline, but the SQL-generation model call raises. -/
def envGenFail : Env := { envBase with gen := .raise (str "boom") }

/-- Baseline, but the user has no active LLM configuration. -/
def envNoConfig : Env := { envBase with hasActiveConfig := false }

/-- Baseline, but every execution fails. -/
def envAllFail : Env := { envBase with conn := connFailC }

/-- Baseline, but the interpretation model call raises. -/
def envInterpRaise : Env := { envBase with interp := .raised (str "llm down") }

/-- Baseline, but generation emits a broken statement and only the
repaired statement executes. -/
def envRepaired : Env := { envBase with gen := .text (str "SELEC 1"), conn := connRepairedC }

/-- Baseline, but every execution fails and the repair model call also
raises. -/
def envFixFail : Env := { envBase with conn := connFailC, fix := .raise (str "fixboom") }

/-- A store with one table `data` holding one row. -/
def storeC : Store := [(str "data", [rowId 1])]

/-- A deterministic engine oracle over store states: return all rows of
all tables, whatever the SQL. -/
def runC : Store → PyStr → EngineRes := fun st _ => .frame (st.map Prod.snd).flatten [str "id"]

/-- A store-transition oracle for read-only statements: the store is
unchanged. -/
def mutateC : Store → PyStr → Store := fun st _ => st

theorem pfx_trans {a b c : PyStr} (h1 : pfx a b = true) (h2 : pfx b c = true) :
    pfx a c = true := by
  induction a generalizing b c with
  | nil => rfl
  | cons x xs ih =>
    cases b with
    | nil => simp [pfx] at h1
    | cons y ys =>
      cases c with
      | nil => simp [pfx] at h2
      | cons z zs =>
        simp only [pfx, Bool.and_eq_true, beq_iff_eq] at h1 h2 ⊢
        exact ⟨h1.1.trans h2.1, ih h1.2 h2.2⟩

theorem pfx_append {p u : PyStr} (v : PyStr) (h : pfx p u = true) :
    pfx p (u ++ v) = true := by
  induction p generalizing u with
  | nil => rfl
  | cons x xs ih =>
    cases u with
    | nil => simp [pfx] at h
    | cons y ys =>
      simp only [pfx, Bool.and_eq_true, beq_iff_eq] at h
      simp only [List.cons_append, pfx, Bool.and_eq_true, beq_iff_eq]
      exact ⟨h.1, ih h.2⟩

theorem hasSub_nil_pat (s : PyStr) : hasSub [] s = true := by
  cases s <;> simp [hasSub, pfx, List.isEmpty]

theorem hasSub_mono {q p s : PyStr} (hq : pfx q p = true) (h : hasSub p s = true) :
    hasSub q s = true := by
  induction s with
  | nil =>
    simp only [hasSub, List.isEmpty_iff] at h
    subst h
    cases q with
    | nil => rfl
    | cons x xs => simp [pfx] at hq
  | cons c rest ih =>
    simp only [hasSub, Bool.or_eq_true] at h ⊢
    rcases h with h | h
    · exact Or.inl (pfx_trans hq h)
    · exact Or.inr (ih h)

theorem hasSub_append_left (pre : PyStr) {p u : PyStr} (h : hasSub p u = true) :
    hasSub p (pre ++ u) = true := by
  induction pre with
  | nil => simpa using h
  | cons c pre ih =>
    simp only [List.cons_append, hasSub, Bool.or_eq_true]
    exact Or.inr ih

theorem hasSub_append_right (v : PyStr) {p u : PyStr} (h : hasSub p u = true) :
    hasSub p (u ++ v) = true := by
  induction u with
  | nil =>
    simp only [hasSub, List.isEmpty_iff] at h
    subst h
    simpa using hasSub_nil_pat v
  | cons c u ih =>
    simp only [hasSub, Bool.or_eq_true] at h
    simp only [List.cons_append, hasSub, Bool.or_eq_true]
    rcases h with h | h
    · exact Or.inl (by simpa using pfx_append v h)
    · exact Or.inr (ih h)

theorem pyStrip_parts (s : PyStr) :
    s = s.takeWhile pyIsSpace
        ++ (pyStrip s ++ ((s.dropWhile pyIsSpace).reverse.takeWhile pyIsSpace).reverse) := by
  have h1 := List.takeWhile_append_dropWhile (p := pyIsSpace) (l := s)
  have h2 := List.takeWhile_append_dropWhile (p := pyIsSpace)
    (l := (s.dropWhile pyIsSpace).reverse)
  have h3 : s.dropWhile pyIsSpace
      = pyStrip s ++ ((s.dropWhile pyIsSpace).reverse.takeWhile pyIsSpace).reverse := by
    unfold pyStrip
    conv_lhs => rw [← List.reverse_reverse (s.dropWhile pyIsSpace), ← h2]
    rw [List.reverse_append]
  conv_lhs => rw [← h1, h3]

theorem hasSub_pyStrip {p t : PyStr} (h : hasSub p (pyStrip t) = true) :
    hasSub p t = true := by
  have hparts := pyStrip_parts t
  have : hasSub p (t.takeWhile pyIsSpace
      ++ (pyStrip t ++ ((t.dropWhile pyIsSpace).reverse.takeWhile pyIsSpace).reverse)) = true :=
    hasSub_append_left _ (hasSub_append_right _ h)
  rwa [← hparts] at this

theorem replFuel_bq3 : ∀ n s, s.length ≤ n →
    hasSub [bq, bq, bq] (replFuel [bq, bq, bq] [] n s) = false
    ∧ (pfx [bq] (replFuel [bq, bq, bq] [] n s) = true → pfx [bq] s = true)
    ∧ (pfx [bq, bq] (replFuel [bq, bq, bq] [] n s) = true → pfx [bq, bq] s = true) := by
  intro n
  induction n with
  | zero =>
    intro s hs
    have hnil : s = [] := List.length_eq_zero.mp (Nat.le_zero.mp hs)
    subst hnil
    refine ⟨rfl, ?_, ?_⟩ <;> intro h <;> simp [replFuel, pfx] at h
  | succ n ih =>
    intro s hs
    cases s with
    | nil =>
      refine ⟨rfl, ?_, ?_⟩ <;> intro h <;> simp [replFuel, pfx] at h
    | cons c rest =>
      by_cases hhit : pfx [bq, bq, bq] (c :: rest) = true
      · have hc : bq = c ∧ pfx [bq, bq] rest = true := by
          simpa [pfx, Bool.and_eq_true, beq_iff_eq] using hhit
        have hres : replFuel [bq, bq, bq] [] (n + 1) (c :: rest)
            = replFuel [bq, bq, bq] [] n (rest.drop 2) := by
          simp [replFuel, hhit]
        have hlen : (rest.drop 2).length ≤ n := by
          have h1 : (rest.drop 2).length = rest.length - 2 := List.length_drop 2 rest
          simp only [List.length_cons] at hs
          omega
        obtain ⟨ih1, _, _⟩ := ih (rest.drop 2) hlen
        refine ⟨by rw [hres]; exact ih1, ?_, ?_⟩
        · intro _
          simp [pfx, hc.1.symm]
        · intro _
          have hb1 : pfx [bq] rest = true := pfx_trans (by decide) hc.2
          simp [pfx, hc.1.symm, hb1]
      · have hres : replFuel [bq, bq, bq] [] (n + 1) (c :: rest)
            = c :: replFuel [bq, bq, bq] [] n rest := by
          simp [replFuel, hhit]
        have hlen : rest.length ≤ n := by
          simp only [List.length_cons] at hs
          omega
        obtain ⟨ih1, ih2, ih3⟩ := ih rest hlen
        refine ⟨?_, ?_, ?_⟩
        · rw [hres]
          simp only [hasSub, Bool.or_eq_true, ih1]
          simp only [Bool.or_false]
          cases hp : pfx [bq, bq, bq] (c :: replFuel [bq, bq, bq] [] n rest) with
          | false => rfl
          | true =>
            exfalso
            have hp2 : bq = c ∧ pfx [bq, bq] (replFuel [bq, bq, bq] [] n rest) = true := by
              simpa [pfx, Bool.and_eq_true, beq_iff_eq] using hp
            have : pfx [bq, bq] rest = true := ih3 hp2.2
            exact hhit (by simp [pfx, hp2.1.symm, this])
        · rw [hres]
          intro h
          have : bq = c := by simpa [pfx, beq_iff_eq] using h
          simp [pfx, this.symm]
        · rw [hres]
          intro h
          have hp2 : bq = c ∧ pfx [bq] (replFuel [bq, bq, bq] [] n rest) = true := by
            simpa [pfx, Bool.and_eq_true, beq_iff_eq] using h
          have : pfx [bq] rest = true := ih2 hp2.2
          simp [pfx, hp2.1.symm, this]

theorem pyReplace_bq3_noSub (s : PyStr) :
    hasSub (str "```") (pyReplace (str "```") [] s) = false := by
  have h3 : str "```" = [bq, bq, bq] := by decide
  rw [h3]
  exact (replFuel_bq3 s.length s le_rfl).1

theorem hasSub_pyStrip_false {p t : PyStr} (h : hasSub p t = false) :
    hasSub p (pyStrip t) = false := by
  cases hx : hasSub p (pyStrip t) with
  | false => rfl
  | true => rw [hasSub_pyStrip hx] at h; exact absurd h (by simp)

theorem cleanSql_noFence {s : PyStr} (h : pfx (str "```") (pyStrip s) = true) :
    hasSub (str "```") (cleanSql s) = false := by
  unfold cleanSql
  by_cases h1 : pfx (str "```sql") (pyStrip s) = true
  · simp only [h1, if_true]
    exact hasSub_pyStrip_false (pyReplace_bq3_noSub _)
  · simp only [h1, if_false, h, if_true]
    exact hasSub_pyStrip_false (pyReplace_bq3_noSub _)

theorem user_turn_first (env : Env) (hchat : env.chatFound = true)
    (hcfg : env.hasActiveConfig = true) :
    ∃ rest, (query_data env).2.messages
      = { role := Role.user, content := env.query } :: rest := by
  refine ⟨(query_data env).2.messages.tail, ?_⟩
  cases hse : env.setupExc with
  | some e =>
    simp [query_data, hchat, hcfg, hse, handleExc, pushMsg]
  | none =>
    cases hg : text_to_sql env.gen with
    | err e =>
      simp [query_data, hchat, hcfg, hse, hg, handleExc, pushMsg]
    | ok sql0 =>
      cases hce : env.connectExc with
      | some e =>
        simp [query_data, hchat, hcfg, hse, hg, hce, handleExc, pushMsg]
      | none =>
        cases hq : execute_query env.conn sql0 with
        | ok data cols n =>
          simp [query_data, hchat, hcfg, hse, hg, hce, hq, finishQuery, pushMsg]
        | err e1 s1 =>
          cases hf : fix_sql_error env.fix with
          | ok sql1 =>
            cases hq2 : execute_query env.conn sql1 with
            | ok data cols n =>
              simp [query_data, hchat, hcfg, hse, hg, hce, hq, hf, hq2, finishQuery, pushMsg]
            | err e2 s2 =>
              simp [query_data, hchat, hcfg, hse, hg, hce, hq, hf, hq2, finishQuery, pushMsg]
          | err ef =>
            simp [query_data, hchat, hcfg, hse, hg, hce, hq, hf, finishQuery, pushMsg]

theorem gen_failure_propagates (env : Env) (e : PyStr) (hchat : env.chatFound = true)
    (hcfg : env.hasActiveConfig = true) (hse : env.setupExc = none)
    (hg : env.gen = .raise e) :
    (query_data env).1 = .httpError 500 (str "500: Failed to generate SQL: " ++ e) := by
  simp [query_data, hchat, hcfg, hse, hg, text_to_sql, handleExc, strOfExc]
  have hcat : ((Nat.repr 500).data ++ (str ": " ++ str "Failed to generate SQL: ") : PyStr)
      = str "500: Failed to generate SQL: " := by decide
  calc (Nat.repr 500).data ++ (str ": " ++ (str "Failed to generate SQL: " ++ e))
      = ((Nat.repr 500).data ++ (str ": " ++ str "Failed to generate SQL: ")) ++ e := by
        simp [List.append_assoc]
    _ = str "500: Failed to generate SQL: " ++ e := by rw [hcat]

theorem exec_failure_absorbed_fix_raise (env : Env) (c e1 ef : PyStr)
    (hchat : env.chatFound = true) (hcfg : env.hasActiveConfig = true)
    (hse : env.setupExc = none) (hce : env.connectExc = none)
    (hg : env.gen = .text c)
    (hq1 : env.conn (cleanSql c) = .raise e1)
    (hf : env.fix = .raise ef) :
    (query_data env).1
      = .response { role := .assistant, content := str "I encountered an error: " ++ e1,
                    sql_query := some (cleanSql c), error_message := some e1 } none none := by
  simp [query_data, hchat, hcfg, hse, hce, hg, hq1, hf, text_to_sql, fix_sql_error,
        execute_query, finishQuery, pushMsg]

theorem exec_failure_absorbed_reexec_fail (env : Env) (c e1 cf e2 : PyStr)
    (hchat : env.chatFound = true) (hcfg : env.hasActiveConfig = true)
    (hse : env.setupExc = none) (hce : env.connectExc = none)
    (hg : env.gen = .text c)
    (hq1 : env.conn (cleanSql c) = .raise e1)
    (hf : env.fix = .text cf)
    (hq2 : env.conn (cleanSql cf) = .raise e2) :
    (query_data env).1
      = .response { role := .assistant, content := str "I encountered an error: " ++ e2,
                    sql_query := some (cleanSql cf), error_message := some e2 } none none := by
  simp [query_data, hchat, hcfg, hse, hce, hg, hq1, hf, hq2, text_to_sql, fix_sql_error,
        execute_query, finishQuery, pushMsg]

/-- Claim C1, counterexample: with chat and active configuration both
resolved, a failed SQL-generation call is NOT absorbed — `query_data`
answers with a request-level `HTTPException(500)`, because the
`HTTPException` raised at chat.py:168 is itself caught by the
`except Exception` handler and re-raised. -/
theorem c1_gen_failure_counterexample :
    envGenFail.chatFound = true ∧ envGenFail.hasActiveConfig = true
    ∧ (query_data envGenFail).1
      = .httpError 500 (str "500: Failed to generate SQL: boom") := by
  refine ⟨rfl, rfl, ?_⟩
  decide

/-- Claim C1 (amended): the chat-query operation fails with a
caller-visible error when the user/chat identity cannot be resolved, when
no model is configured, and also when SQL generation fails (re-raised as
a 500 after an error assistant turn is stored); SQL *execution* failures
— whether the repair call itself fails or the repaired SQL fails again —
are absorbed into a successful response carrying an error-shaped
assistant turn. -/
theorem c1_caller_visible_failures :
    (∀ (env : Env) (e : PyStr), env.chatFound = true → env.hasActiveConfig = true →
      env.setupExc = none → env.gen = .raise e →
      (query_data env).1 = .httpError 500 (str "500: Failed to generate SQL: " ++ e))
    ∧ (∀ (env : Env) (c e1 ef : PyStr), env.chatFound = true → env.hasActiveConfig = true →
      env.setupExc = none → env.connectExc = none → env.gen = .text c →
      env.conn (cleanSql c) = .raise e1 → env.fix = .raise ef →
      (query_data env).1
        = .response { role := .assistant, content := str "I encountered an error: " ++ e1,
                      sql_query := some (cleanSql c), error_message := some e1 } none none)
    ∧ (∀ (env : Env) (c e1 cf e2 : PyStr), env.chatFound = true → env.hasActiveConfig = true →
      env.setupExc = none → env.connectExc = none → env.gen = .text c →
      env.conn (cleanSql c) = .raise e1 → env.fix = .text cf →
      env.conn (cleanSql cf) = .raise e2 →
      (query_data env).1
        = .response { role := .assistant, content := str "I encountered an error: " ++ e2,
                      sql_query := some (cleanSql cf), error_message := some e2 } none none) :=
  ⟨fun env e h1 h2 h3 h4 => gen_failure_propagates env e h1 h2 h3 h4,
   fun env c e1 ef h1 h2 h3 h4 h5 h6 h7 =>
     exec_failure_absorbed_fix_raise env c e1 ef h1 h2 h3 h4 h5 h6 h7,
   fun env c e1 cf e2 h1 h2 h3 h4 h5 h6 h7 h8 =>
     exec_failure_absorbed_reexec_fail env c e1 cf e2 h1 h2 h3 h4 h5 h6 h7 h8⟩

/-- Witness for C1: the three cases of `c1_caller_visible_failures`
evaluated on concrete environments. -/
theorem c1_caller_visible_failures_witness :
    (query_data envGenFail).1 = .httpError 500 (str "500: Failed to generate SQL: " ++ str "boom")
    ∧ (query_data envFixFail).1
      = .response { role := .assistant,
                    content := str "I encountered an error: " ++ str "Parser Error: syntax error at X",
                    sql_query := some (cleanSql (str "SELECT 1")),
                    error_message := some (str "Parser Error: syntax error at X") } none none
    ∧ (query_data envAllFail).1
      = .response { role := .assistant,
                    content := str "I encountered an error: " ++ str "Parser Error: syntax error at X",
                    sql_query := some (cleanSql (str "SELECT 2")),
                    error_message := some (str "Parser Error: syntax error at X") } none none :=
  ⟨c1_caller_visible_failures.1 envGenFail (str "boom") rfl rfl rfl rfl,
   c1_caller_visible_failures.2.1 envFixFail (str "SELECT 1")
     (str "Parser Error: syntax error at X") (str "fixboom") rfl rfl rfl rfl rfl rfl rfl,
   c1_caller_visible_failures.2.2 envAllFail (str "SELECT 1")
     (str "Parser Error: syntax error at X") (str "SELECT 2")
     (str "Parser Error: syntax error at X") rfl rfl rfl rfl rfl rfl rfl rfl⟩

/-- Claim C2, counterexample: when no active LLM configuration exists the
400 error surfaces with NO turn stored at all — the configuration check
at chat.py:122-133 precedes the user-turn insert at chat.py:135-142, so
the user turn has not been stored in that case. -/
theorem c2_config_error_counterexample :
    envNoConfig.chatFound = true ∧ envNoConfig.hasActiveConfig = false
    ∧ query_data envNoConfig
      = (.httpError 400 (str "No active LLM configuration. Please configure your API key."),
         { messages := [], genCalls := 0, execCalls := 0, fixCalls := 0 }) :=
  ⟨rfl, rfl, rfl⟩

/-- Claim C2 (amended): a user turn is persisted before any generation
attempt — in every run that can reach generation (chat found, active
configuration present) the first persisted message is the user turn, and
generation is only ever attempted in such runs; but the configuration
check precedes user-turn persistence, so when no active model
configuration exists the error surfaces with no turn stored at all. -/
theorem c2_user_turn_order :
    (∀ env : Env, env.chatFound = true → env.hasActiveConfig = true →
      ∃ rest, (query_data env).2.messages
        = { role := Role.user, content := env.query } :: rest)
    ∧ (∀ env : Env, (query_data env).2.genCalls ≠ 0 →
      env.chatFound = true ∧ env.hasActiveConfig = true)
    ∧ (∀ env : Env, env.chatFound = true → env.hasActiveConfig = false →
      query_data env
        = (.httpError 400 (str "No active LLM configuration. Please configure your API key."),
           { messages := [], genCalls := 0, execCalls := 0, fixCalls := 0 })) := by
  refine ⟨user_turn_first, ?_, ?_⟩
  · intro env h
    cases hc : env.chatFound with
    | false => exact absurd (by simp [query_data, hc]) h
    | true =>
      cases hcfg : env.hasActiveConfig with
      | false => exact absurd (by simp [query_data, hc, hcfg]) h
      | true => exact ⟨rfl, rfl⟩
  · intro env h1 h2
    simp [query_data, h1, h2]

/-- Witness for C2: the three parts of `c2_user_turn_order` evaluated on
concrete environments. -/
theorem c2_user_turn_order_witness :
    (∃ rest, (query_data envBase).2.messages
      = { role := Role.user, content := envBase.query } :: rest)
    ∧ (envAllFail.chatFound = true ∧ envAllFail.hasActiveConfig = true)
    ∧ query_data envNoConfig
      = (.httpError 400 (str "No active LLM configuration. Please configure your API key."),
         { messages := [], genCalls := 0, execCalls := 0, fixCalls := 0 }) :=
  ⟨c2_user_turn_order.1 envBase rfl rfl,
   c2_user_turn_order.2.1 envAllFail (by decide),
   c2_user_turn_order.2.2 envNoConfig rfl rfl⟩

/-- Claim C3: against an executor on which every statement fails and with
working model calls, `query_data` performs exactly one generation call,
two execution calls (the execution and the single re-execution), and one
repair call, then terminates by persisting a FAILED-shaped assistant turn
(error text set, no result data) inside a successful response — a second
repair attempt never occurs. -/
theorem c3_repair_bound (env : Env) (c cf : PyStr)
    (hchat : env.chatFound = true) (hcfg : env.hasActiveConfig = true)
    (hsetup : env.setupExc = none) (hconn : env.connectExc = none)
    (hgen : env.gen = .text c) (hfix : env.fix = .text cf)
    (hfail : ∀ s, ∃ m, env.conn s = .raise m) :
    ∃ e, query_data env =
      (.response { role := .assistant, content := str "I encountered an error: " ++ e,
                   sql_query := some (cleanSql cf), query_result := none,
                   error_message := some e } none none,
       { messages := [{ role := .user, content := env.query },
                      { role := .assistant, content := str "I encountered an error: " ++ e,
                        sql_query := some (cleanSql cf), query_result := none,
                        error_message := some e }],
         genCalls := 1, execCalls := 2, fixCalls := 1 }) := by
  obtain ⟨e1, h1⟩ := hfail (cleanSql c)
  obtain ⟨e2, h2⟩ := hfail (cleanSql cf)
  refine ⟨e2, ?_⟩
  simp [query_data, hchat, hcfg, hsetup, hconn, hgen, hfix, text_to_sql, fix_sql_error,
        execute_query, h1, h2, finishQuery, pushMsg]

/-- Witness for C3: `c3_repair_bound` evaluated on the always-failing
concrete environment. -/
theorem c3_repair_bound_witness :
    ∃ e, query_data envAllFail =
      (.response { role := .assistant, content := str "I encountered an error: " ++ e,
                   sql_query := some (cleanSql (str "SELECT 2")), query_result := none,
                   error_message := some e } none none,
       { messages := [{ role := Role.user, content := str "How many rows are there?" },
                      { role := .assistant, content := str "I encountered an error: " ++ e,
                        sql_query := some (cleanSql (str "SELECT 2")), query_result := none,
                        error_message := some e }],
         genCalls := 1, execCalls := 2, fixCalls := 1 }) :=
  c3_repair_bound envAllFail (str "SELECT 1") (str "SELECT 2") rfl rfl rfl rfl rfl rfl
    (fun _ => ⟨str "Parser Error: syntax error at X", rfl⟩)

/-- Claim C4, counterexample: on a fully successful generation/execution
run whose interpretation model call raises, `query_data` does NOT surface
a request-level failure — `interpret_results` catches the exception and
returns a failure dict, `chat.py` falls back to
`interpretation.get(...)` defaults, stores a normal assistant turn with
no error recorded, and returns a successful response. -/
theorem c4_interp_failure_counterexample :
    envInterpRaise.interp = .raised (str "llm down")
    ∧ query_data envInterpRaise
      = (.response { role := .assistant, content := str "Found 1 results.",
                     sql_query := some (str "SELECT 1"), query_result := some [rowId 1] }
          (some [rowId 1]) (some (str "table")),
         { messages :=
             [{ role := Role.user, content := str "How many rows are there?" },
              { role := .assistant, content := str "Found 1 results.",
                sql_query := some (str "SELECT 1"), query_result := some [rowId 1] }],
           genCalls := 1, execCalls := 1, fixCalls := 0 }) := by
  refine ⟨rfl, ?_⟩
  decide

/-- Claim C4 (amended): when the interpretation model call itself raises,
the failure is absorbed, not surfaced: the orchestrator falls back to the
canned answer `Found {row_count} results.` with visualization `table`,
persists a normal assistant turn carrying the query result and no error,
and returns a successful response. -/
theorem c4_interp_failure_absorbed (env : Env) (c e : PyStr) (data : List Row)
    (cols : List PyStr)
    (hchat : env.chatFound = true) (hcfg : env.hasActiveConfig = true)
    (hse : env.setupExc = none) (hce : env.connectExc = none)
    (hg : env.gen = .text c)
    (hq : env.conn (cleanSql c) = .frame data cols)
    (hi : env.interp = .raised e) :
    query_data env
      = (.response { role := .assistant, content := canned data.length,
                     sql_query := some (cleanSql c), query_result := some data }
          (some data) (some (str "table")),
         { messages :=
             [{ role := Role.user, content := env.query },
              { role := .assistant, content := canned data.length,
                sql_query := some (cleanSql c), query_result := some data }],
           genCalls := 1, execCalls := 1, fixCalls := 0 }) := by
  simp [query_data, hchat, hcfg, hse, hce, hg, hq, hi, text_to_sql, execute_query,
        finishQuery, interpret_results, pushMsg]

/-- Witness for C4: `c4_interp_failure_absorbed` evaluated on the
concrete environment whose interpretation call raises. -/
theorem c4_interp_failure_absorbed_witness :
    query_data envInterpRaise
      = (.response { role := .assistant, content := canned 1,
                     sql_query := some (cleanSql (str "SELECT 1")),
                     query_result := some [rowId 1] }
          (some [rowId 1]) (some (str "table")),
         { messages :=
             [{ role := Role.user, content := str "How many rows are there?" },
              { role := .assistant, content := canned 1,
                sql_query := some (cleanSql (str "SELECT 1")),
                query_result := some [rowId 1] }],
           genCalls := 1, execCalls := 1, fixCalls := 0 }) :=
  c4_interp_failure_absorbed envInterpRaise (str "SELECT 1") (str "llm down")
    [rowId 1] [str "id"] rfl rfl rfl rfl rfl rfl rfl

/-- Claim C5: the SQL generator's mandatory post-processing strips fenced
code-block wrappers with or without a language tag: both
`"```sql\nSELECT 1\n```"` and `"```\nSELECT 1\n```"` yield exactly
`SELECT 1`. -/
theorem c5_fence_round_trip :
    text_to_sql (.text (str "```sql\nSELECT 1\n```")) = .ok (str "SELECT 1")
    ∧ text_to_sql (.text (str "```\nSELECT 1\n```")) = .ok (str "SELECT 1") := by
  decide

/-- Claim C6: for every row list, when the interpretation model returns
unparsable text, `interpret_results` propagates no error and returns the
canned interpretation `{answer: "Found {row_count} results.", insights:
[], visualization_type: "table"}`; for three rows the answer is exactly
`Found 3 results.`. -/
theorem c6_interpretation_fallback :
    (∀ rows : List Row, interpret_results rows .nonJson
      = .success { answer := some (canned rows.length), insights := some [],
                   visualization_type := some (str "table") })
    ∧ interpret_results [rowId 1, rowId 2, rowId 3] .nonJson
      = .success { answer := some (str "Found 3 results."), insights := some [],
                   visualization_type := some (str "table") } :=
  ⟨fun _ => rfl, by decide⟩

/-- Claim C7: `execute_query` never raises past its boundary: it is a
total function of the connection's behaviour; when the engine raises it
returns a failure outcome carrying the engine's error text verbatim and
the SQL attempted, and when the engine returns a frame it returns the
full materialized row list, the column name list, and a row count equal
to the number of returned rows, with no row cap. -/
theorem c7_executor_contract (conn : PyStr → EngineRes) (sql : PyStr) :
    (∀ rows cols, conn sql = .frame rows cols →
        execute_query conn sql = .ok rows cols rows.length)
    ∧ (∀ m, conn sql = .raise m → execute_query conn sql = .err m sql) := by
  constructor
  · intro rows cols h
    simp [execute_query, h]
  · intro m h
    simp [execute_query, h]

/-- Witness for C7: both branches of `c7_executor_contract` evaluated on
concrete connections. -/
theorem c7_executor_contract_witness :
    execute_query connOkC (str "SELECT 1") = .ok [rowId 1] [str "id"] 1
    ∧ execute_query connFailC (str "SELECT 1")
      = .err (str "Parser Error: syntax error at X") (str "SELECT 1") :=
  ⟨(c7_executor_contract connOkC (str "SELECT 1")).1 [rowId 1] [str "id"] rfl,
   (c7_executor_contract connFailC (str "SELECT 1")).2 _ rfl⟩

/-- Claim C8: when the first execution of generated SQL fails, the repair
call returns corrected SQL, and re-execution of the corrected SQL
succeeds, the persisted final assistant turn's `sql_query` holds the
corrected statement, not the original failing one. -/
theorem c8_repaired_sql_persisted (env : Env) (c cf e1 : PyStr) (data : List Row)
    (cols : List PyStr)
    (hchat : env.chatFound = true) (hcfg : env.hasActiveConfig = true)
    (hse : env.setupExc = none) (hce : env.connectExc = none)
    (hg : env.gen = .text c)
    (hq1 : env.conn (cleanSql c) = .raise e1)
    (hf : env.fix = .text cf)
    (hq2 : env.conn (cleanSql cf) = .frame data cols)
    (hne : cleanSql cf ≠ cleanSql c) :
    ∃ m viz, query_data env
        = (.response m (some data) (some viz),
           { messages := [{ role := Role.user, content := env.query }, m],
             genCalls := 1, execCalls := 2, fixCalls := 1 })
      ∧ m.sql_query = some (cleanSql cf)
      ∧ m.sql_query ≠ some (cleanSql c) := by
  cases hi : env.interp with
  | raised e =>
    refine ⟨{ role := .assistant, content := canned data.length,
              sql_query := some (cleanSql cf), query_result := some data },
            str "table", ?_, rfl, by simpa using hne⟩
    simp [query_data, hchat, hcfg, hse, hce, hg, hq1, hf, hq2, hi, text_to_sql,
          fix_sql_error, execute_query, finishQuery, interpret_results, pushMsg]
  | nonJson =>
    refine ⟨{ role := .assistant, content := canned data.length,
              sql_query := some (cleanSql cf), query_result := some data },
            str "table", ?_, rfl, by simpa using hne⟩
    simp [query_data, hchat, hcfg, hse, hce, hg, hq1, hf, hq2, hi, text_to_sql,
          fix_sql_error, execute_query, finishQuery, interpret_results, pushMsg]
  | json j =>
    refine ⟨{ role := .assistant, content := j.answer.getD (canned data.length),
              sql_query := some (cleanSql cf), query_result := some data },
            j.visualization_type.getD (str "table"), ?_, rfl, by simpa using hne⟩
    simp [query_data, hchat, hcfg, hse, hce, hg, hq1, hf, hq2, hi, text_to_sql,
          fix_sql_error, execute_query, finishQuery, interpret_results, pushMsg]

/-- Witness for C8: `c8_repaired_sql_persisted` evaluated on the concrete
environment where only the repaired statement executes. -/
theorem c8_repaired_sql_persisted_witness :
    ∃ m viz, query_data envRepaired
        = (.response m (some [rowId 1]) (some viz),
           { messages := [{ role := Role.user, content := str "How many rows are there?" }, m],
             genCalls := 1, execCalls := 2, fixCalls := 1 })
      ∧ m.sql_query = some (cleanSql (str "SELECT 2"))
      ∧ m.sql_query ≠ some (cleanSql (str "SELEC 1")) :=
  c8_repaired_sql_persisted envRepaired (str "SELEC 1") (str "SELECT 2")
    (str "Parser Error: syntax error at X") [rowId 1] [str "id"]
    rfl rfl rfl rfl rfl rfl rfl rfl (by decide)

/-- Claim C9: executing the same SQL twice against an unchanged store
yields identical outcome data — the engine is modelled (per the design's
collaborator interface) as a deterministic function of store state and
SQL text, and `execute_query` adds no state of its own, so a read-only
statement (one that leaves the store unchanged) gives the same
`QueryOutcome` on both calls. -/
theorem c9_execution_deterministic (run : Store → PyStr → EngineRes)
    (mutate : Store → PyStr → Store) (st : Store) (sql : PyStr)
    (h : mutate st sql = st) :
    execute_query (connOf run (mutate st sql)) sql
      = execute_query (connOf run st) sql := by
  rw [h]

/-- Witness for C9: `c9_execution_deterministic` on a concrete store and
a read-only transition. -/
theorem c9_execution_deterministic_witness :
    execute_query (connOf runC (mutateC storeC (str "SELECT 1"))) (str "SELECT 1")
      = execute_query (connOf runC storeC) (str "SELECT 1") :=
  c9_execution_deterministic runC mutateC storeC (str "SELECT 1") rfl

/-- Claim C10: for every model output that (after the initial strip)
starts with a fenced code block, the cleanup used by both the generator
and the repair path removes every occurrence of the fence marker
` ``` ` — and hence of the ` ```sql ` tag — anywhere in the string, not
only the enclosing wrapper, so fence markers inside the statement body
are also deleted from the returned SQL. -/
theorem c10_strip_removes_all_fences (s : PyStr)
    (h : pfx (str "```") (pyStrip s) = true) :
    text_to_sql (.text s) = .ok (cleanSql s)
    ∧ fix_sql_error (.text s) = .ok (cleanSql s)
    ∧ hasSub (str "```") (cleanSql s) = false
    ∧ hasSub (str "```sql") (cleanSql s) = false := by
  have h3 := cleanSql_noFence h
  refine ⟨rfl, rfl, h3, ?_⟩
  cases hx : hasSub (str "```sql") (cleanSql s) with
  | false => rfl
  | true =>
    have := hasSub_mono (q := str "```") (by decide) hx
    rw [this] at h3
    exact absurd h3 (by simp)

/-- Witness for C10: `c10_strip_removes_all_fences` on a fenced statement
containing an interior fence marker, which is deleted as well. -/
theorem c10_strip_removes_all_fences_witness :
    pfx (str "```") (pyStrip (str "```sql\nSELECT 1 ``` 2\n```")) = true
    ∧ cleanSql (str "```sql\nSELECT 1 ``` 2\n```") = str "SELECT 1  2"
    ∧ hasSub (str "```") (cleanSql (str "```sql\nSELECT 1 ``` 2\n```")) = false
    ∧ hasSub (str "```sql") (cleanSql (str "```sql\nSELECT 1 ``` 2\n```")) = false :=
  ⟨by decide, by decide,
   (c10_strip_removes_all_fences _ (by decide)).2.2.1,
   (c10_strip_removes_all_fences _ (by decide)).2.2.2⟩
